import Mathlib

/-! Shallow embedding of the error module of the hyperdrive library
(src/error.rs): the built-in error kinds, the concrete error value
`BuildInError`, the generic sum type `FromRequestError`, and HTTP response
synthesis. Aborting branches (the `unreachable` arm reached only by the
hidden enum variant) are modelled as `Option.none`. -/

/-- HTTP status codes, modelled as natural numbers. -/
abbrev StatusCode := Nat

/-- The 400 Bad Request status constant. -/
def StatusCode.BAD_REQUEST : StatusCode := 400

/-- The 404 Not Found status constant. -/
def StatusCode.NOT_FOUND : StatusCode := 404

/-- The 405 Method Not Allowed status constant. -/
def StatusCode.METHOD_NOT_ALLOWED : StatusCode := 405

/-- An HTTP method token, identified by its textual form. -/
abbrev Method := String

/-- The textual form of a method token (identity in this model). -/
def Method.as_str (m : Method) : String := m

/-- Upper-casing of a textual token, modelled character-wise; on the ASCII
method tokens this agrees with the source library upper-casing. -/
def strToUpper (s : String) : String := String.mk (s.data.map Char.toUpper)

/-- A type-erased causal error (the BoxedError alias), modelled by its
display form. -/
structure BoxedError where
  display : String
  deriving DecidableEq, Repr

/-- The kinds of built-in errors, translated from the source enum. Besides
the five documented variants the source declares a hidden variant named
with two leading underscores (doc-hidden, meant never to be constructed);
it is part of the type nonetheless. -/
inductive BuildInErrorKind
  | QueryParam
  | Body
  | PathSegment
  | NoMatchingRoute
  | WrongMethod
  | __Nonexhaustive
  deriving DecidableEq, Repr

/-- The status mapping of a kind. The source matches on the kind and maps
the five documented variants to fixed statuses; the hidden variant hits an
unreachable arm that aborts, modelled here as `none`. -/
def BuildInErrorKind.http_status : BuildInErrorKind → Option StatusCode
  | BuildInErrorKind.QueryParam | BuildInErrorKind.Body =>
      some StatusCode.BAD_REQUEST
  | BuildInErrorKind.PathSegment | BuildInErrorKind.NoMatchingRoute =>
      some StatusCode.NOT_FOUND
  | BuildInErrorKind.WrongMethod => some StatusCode.METHOD_NOT_ALLOWED
  | BuildInErrorKind.__Nonexhaustive => none

/-- The fixed display phrase of a kind, translated from the Display impl;
the unreachable arm of the hidden variant is modelled as `none`. -/
def BuildInErrorKind.displayStr : BuildInErrorKind → Option String
  | BuildInErrorKind.PathSegment => some "failed to parse data in path segment"
  | BuildInErrorKind.QueryParam => some "failed to parse query parameters"
  | BuildInErrorKind.Body => some "failed to parse request body"
  | BuildInErrorKind.NoMatchingRoute => some "requested route does not exist"
  | BuildInErrorKind.WrongMethod => some "method not supported on this endpoint"
  | BuildInErrorKind.__Nonexhaustive => none

/-- A bodiless HTTP response: a status, headers in insertion order, and a
unit body. -/
structure Response where
  status : StatusCode
  headers : List (String × String)
  body : Unit
  deriving DecidableEq, Repr

/-- The state of a response builder: status (default 200) and accumulated
headers. -/
structure ResponseBuilder where
  status : StatusCode
  headers : List (String × String)
  deriving DecidableEq, Repr

/-- A fresh response builder. -/
def ResponseBuilder.new : ResponseBuilder :=
  { status := 200, headers := [] }

/-- Set the status of the response being built. -/
def ResponseBuilder.setStatus (b : ResponseBuilder) (s : StatusCode) : ResponseBuilder :=
  { b with status := s }

/-- Append a header to the response being built. -/
def ResponseBuilder.header (b : ResponseBuilder) (n v : String) : ResponseBuilder :=
  { b with headers := b.headers ++ [(n, v)] }

/-- Finish the builder with a unit body. With a fixed valid status and a
plain header value this construction cannot fail, so the expect call in the
source never fires and the model is total. -/
def ResponseBuilder.body (b : ResponseBuilder) (u : Unit) : Response :=
  { status := b.status, headers := b.headers, body := u }

/-- The concrete built-in error value: a kind, the allowed methods list
(meaningful for the wrong-method kind), and an optional causal error. -/
structure BuildInError where
  kind : BuildInErrorKind
  allowed_methods : List Method
  source : Option BoxedError
  deriving DecidableEq, Repr

/-- Constructor from a bare kind: empty method list, no cause. -/
def BuildInError.from_kind (kind : BuildInErrorKind) : BuildInError :=
  { kind := kind, allowed_methods := [], source := none }

/-- Constructor from a kind and a causal error: empty method list, the
cause stored. The source conversion into the boxed form is identity here. -/
def BuildInError.with_source (kind : BuildInErrorKind) (source : BoxedError) : BuildInError :=
  { kind := kind, allowed_methods := [], source := some source }

/-- Constructor for the wrong-method kind: stores the given method list
verbatim, no cause. -/
def BuildInError.wrong_method (allowed_methods : List Method) : BuildInError :=
  { kind := BuildInErrorKind.WrongMethod
    allowed_methods := allowed_methods
    source := none }

/-- Convenience constructor for a malformed body: the body kind, empty
method list, the cause stored. -/
def BuildInError.malformed_body (source : BoxedError) : BuildInError :=
  { kind := BuildInErrorKind.Body
    allowed_methods := []
    source := some source }

/-- The status of an error, delegating to its kind. -/
def BuildInError.http_status (e : BuildInError) : Option StatusCode :=
  e.kind.http_status

/-- Response synthesis: status from the kind mapping; for the wrong-method
kind, one Allow header whose value upper-cases each stored method token and
joins them with a comma and a space. `none` models the abort inside the
status mapping on the hidden kind. -/
def BuildInError.response (e : BuildInError) : Option Response :=
  (e.http_status).map fun st =>
    let b := (ResponseBuilder.new).setStatus st
    let b :=
      if e.kind = BuildInErrorKind.WrongMethod then
        b.header "allow"
          (String.intercalate ", "
            (e.allowed_methods.map fun m => strToUpper (Method.as_str m)))
      else b
    b.body ()

/-- Accessor for the allowed methods: present exactly for the wrong-method
kind. -/
def BuildInError.allowedMethods (e : BuildInError) : Option (List Method) :=
  if e.kind = BuildInErrorKind.WrongMethod then some e.allowed_methods
  else none

/-- The display text of an error: the kind phrase alone without a cause,
else the kind phrase, a colon and a space, and the display form of the
cause. The kind phrase of the hidden variant aborts, hence `none`. -/
def BuildInError.displayText (e : BuildInError) : Option String :=
  match e.source with
  | none => e.kind.displayStr
  | some s => Option.map (fun k => k ++ ": " ++ s.display) e.kind.displayStr

/-- The causal-error accessor, translated from the Error impl. -/
def BuildInError.errorSource (e : BuildInError) : Option BoxedError :=
  match e.source with
  | some s => some s
  | none => none

/-- The generic error sum type over an application error type. -/
inductive FromRequestError (E : Type)
  | Custom (err : E)
  | BuildIn (err : BuildInError)
  deriving DecidableEq, Repr

/-- Helper building the built-in variant for a malformed body. -/
def FromRequestError.malformed_body {E : Type} (source : BoxedError) : FromRequestError E :=
  FromRequestError.BuildIn (BuildInError.malformed_body source)

/-- Helper building the built-in variant for a wrong method. -/
def FromRequestError.wrong_method {E : Type} (allowed_methods : List Method) : FromRequestError E :=
  FromRequestError.BuildIn (BuildInError.wrong_method allowed_methods)

/-- Helper building the built-in variant for a missing route. -/
def FromRequestError.no_matching_route {E : Type} : FromRequestError E :=
  FromRequestError.BuildIn (BuildInError.from_kind BuildInErrorKind.NoMatchingRoute)

/-- Reference accessor for the built-in variant. -/
def FromRequestError.as_build_in {E : Type} : FromRequestError E → Option BuildInError
  | FromRequestError.BuildIn err => some err
  | _ => none

/-- Consuming accessor for the built-in variant: the payload on the
built-in variant, else the original value as the failure. -/
def FromRequestError.into_build_in {E : Type} :
    FromRequestError E → Except (FromRequestError E) BuildInError
  | FromRequestError.BuildIn err => Except.ok err
  | other => Except.error other

/-- Reference accessor for the custom variant. -/
def FromRequestError.as_custom {E : Type} : FromRequestError E → Option E
  | FromRequestError.Custom err => some err
  | _ => none

/-- Consuming accessor for the custom variant: the payload on the custom
variant, else the original value as the failure. -/
def FromRequestError.into_custom {E : Type} :
    FromRequestError E → Except (FromRequestError E) E
  | FromRequestError.Custom err => Except.ok err
  | other => Except.error other

/-- Conversion rewriting the custom payload through a mapping; the Into
bound of the source is passed as an explicit function. -/
def FromRequestError.convert_custom_error {E NewError : Type} (f : E → NewError) :
    FromRequestError E → FromRequestError NewError
  | FromRequestError.Custom err => FromRequestError.Custom (f err)
  | FromRequestError.BuildIn err => FromRequestError.BuildIn err

/-- C1: each of the five named kinds maps to exactly its documented status:
QueryParam and Body to 400, PathSegment and NoMatchingRoute to 404,
WrongMethod to 405. -/
theorem http_status_of_named_kinds :
    BuildInErrorKind.QueryParam.http_status = some 400 ∧
      BuildInErrorKind.Body.http_status = some 400 ∧
      BuildInErrorKind.PathSegment.http_status = some 404 ∧
      BuildInErrorKind.NoMatchingRoute.http_status = some 404 ∧
      BuildInErrorKind.WrongMethod.http_status = some 405 := by
  decide

/-- C2: for every error whose kind is not the hidden variant, response
synthesis yields a response whose status equals the status mapping, whose
body is empty, and whose header list is exactly one Allow header with the
upper-cased methods joined by a comma and a space when the kind is
WrongMethod, and empty otherwise. -/
theorem response_contract (e : BuildInError)
    (h : e.kind ≠ BuildInErrorKind.__Nonexhaustive) :
    ∃ r : Response, e.response = some r ∧
      some r.status = e.http_status ∧
      r.body = () ∧
      r.headers =
        (if e.kind = BuildInErrorKind.WrongMethod then
          [("allow", String.intercalate ", "
            (e.allowed_methods.map fun m => strToUpper (Method.as_str m)))]
        else []) := by
  obtain ⟨k, ms, s⟩ := e
  cases k <;> first
    | exact ⟨_, rfl, rfl, rfl, rfl⟩
    | exact absurd rfl h

/-- Witness for C2 at the wrong-method constructor with two methods. -/
theorem response_contract_witness :
    (BuildInError.wrong_method ["get", "post"]).response =
        some { status := 405, headers := [("allow", "GET, POST")], body := () } ∧
      ∃ r : Response, (BuildInError.wrong_method ["get", "post"]).response = some r ∧
        some r.status = (BuildInError.wrong_method ["get", "post"]).http_status ∧
        r.body = () ∧
        r.headers =
          (if (BuildInError.wrong_method ["get", "post"]).kind = BuildInErrorKind.WrongMethod then
            [("allow", String.intercalate ", "
              ((BuildInError.wrong_method ["get", "post"]).allowed_methods.map
                fun m => strToUpper (Method.as_str m)))]
          else []) :=
  ⟨by decide, response_contract (BuildInError.wrong_method ["get", "post"]) (by decide)⟩

/-- C3 counterexample: the hidden sixth variant of the kind enum is a value
of the type equal to none of the five named kinds, so the type is not a
closed set of exactly those five. -/
theorem errorkind_five_closed_cex :
    ¬ (BuildInErrorKind.__Nonexhaustive = BuildInErrorKind.QueryParam ∨
        BuildInErrorKind.__Nonexhaustive = BuildInErrorKind.Body ∨
        BuildInErrorKind.__Nonexhaustive = BuildInErrorKind.PathSegment ∨
        BuildInErrorKind.__Nonexhaustive = BuildInErrorKind.NoMatchingRoute ∨
        BuildInErrorKind.__Nonexhaustive = BuildInErrorKind.WrongMethod) := by
  decide

/-- C3 amended: the kind enum is closed over exactly six values, the five
named kinds plus the hidden doc-hidden variant, none carrying a payload. -/
theorem errorkind_closed_six (k : BuildInErrorKind) :
    k = BuildInErrorKind.QueryParam ∨ k = BuildInErrorKind.Body ∨
      k = BuildInErrorKind.PathSegment ∨ k = BuildInErrorKind.NoMatchingRoute ∨
      k = BuildInErrorKind.WrongMethod ∨ k = BuildInErrorKind.__Nonexhaustive := by
  cases k <;> simp

/-- C4 counterexample: the status mapping reaches its aborting unreachable
arm on the hidden variant, so it is not total over the whole type. -/
theorem http_status_nonexhaustive_cex :
    (BuildInErrorKind.http_status BuildInErrorKind.__Nonexhaustive).isSome = false := by
  decide

/-- C4 amended: the status mapping is pure and returns a status for every
kind other than the hidden variant; only that variant reaches the aborting
arm. -/
theorem http_status_total_on_public (k : BuildInErrorKind)
    (h : k ≠ BuildInErrorKind.__Nonexhaustive) :
    (BuildInErrorKind.http_status k).isSome = true := by
  cases k <;> first
    | rfl
    | exact absurd rfl h

/-- Witness for the amended C4 at the query-parameter kind. -/
theorem http_status_total_on_public_witness :
    BuildInErrorKind.QueryParam ≠ BuildInErrorKind.__Nonexhaustive ∧
      (BuildInErrorKind.http_status BuildInErrorKind.QueryParam).isSome = true :=
  ⟨by decide, http_status_total_on_public BuildInErrorKind.QueryParam (by decide)⟩

/-- C5: the consuming accessors are lossless: on the matching variant they
return the payload unchanged, on the other variant they return the original
sum value unchanged as the failure. -/
theorem into_accessors_lossless (E : Type) (b : BuildInError) (e : E) :
    FromRequestError.into_build_in (FromRequestError.BuildIn (E := E) b) = Except.ok b ∧
      FromRequestError.into_build_in (FromRequestError.Custom (E := E) e) =
        Except.error (FromRequestError.Custom e) ∧
      FromRequestError.into_custom (FromRequestError.Custom (E := E) e) = Except.ok e ∧
      FromRequestError.into_custom (FromRequestError.BuildIn (E := E) b) =
        Except.error (FromRequestError.BuildIn b) :=
  ⟨rfl, rfl, rfl, rfl⟩

/-- C6: conversion through a mapping rewrites a custom payload through the
mapping and leaves a built-in payload identical. -/
theorem convert_custom_error_spec (E N : Type) (f : E → N) (e : E) (b : BuildInError) :
    FromRequestError.convert_custom_error f (FromRequestError.Custom (E := E) e) =
        FromRequestError.Custom (f e) ∧
      FromRequestError.convert_custom_error f (FromRequestError.BuildIn (E := E) b) =
        FromRequestError.BuildIn b :=
  ⟨rfl, rfl⟩

/-- C7: the malformed-body constructor yields the body kind with exactly
the given cause stored, and equals the with-source constructor at the body
kind. -/
theorem malformed_body_spec (c : BoxedError) :
    (BuildInError.malformed_body c).kind = BuildInErrorKind.Body ∧
      (BuildInError.malformed_body c).source = some c ∧
      BuildInError.malformed_body c = BuildInError.with_source BuildInErrorKind.Body c :=
  ⟨rfl, rfl, rfl⟩

/-- C8: the three non-wrong-method constructors store an empty method list,
the wrong-method constructor stores the given list verbatim under the
wrong-method kind, and the accessor returns the stored list as present
exactly for the wrong-method kind. -/
theorem allowed_methods_invariant (k : BuildInErrorKind) (s : BoxedError)
    (ms : List Method) (e : BuildInError) :
    (BuildInError.from_kind k).allowed_methods = [] ∧
      (BuildInError.with_source k s).allowed_methods = [] ∧
      (BuildInError.malformed_body s).allowed_methods = [] ∧
      (BuildInError.wrong_method ms).allowed_methods = ms ∧
      (BuildInError.wrong_method ms).kind = BuildInErrorKind.WrongMethod ∧
      BuildInError.allowedMethods e =
        (if e.kind = BuildInErrorKind.WrongMethod then some e.allowed_methods else none) :=
  ⟨rfl, rfl, rfl, rfl, rfl, rfl⟩

/-- C9: when the kind has a display phrase, the display text is that phrase
alone without a stored cause, and the phrase, a colon and a space, and the
display form of the cause with one; the causal accessor returns the stored
cause when present. -/
theorem display_and_source_spec (e : BuildInError) (k : String)
    (hk : e.kind.displayStr = some k) :
    (e.source = none → e.displayText = some k) ∧
      (∀ c : BoxedError, e.source = some c →
        e.displayText = some (k ++ ": " ++ c.display)) ∧
      e.errorSource = e.source := by
  refine ⟨?_, ?_, ?_⟩
  · intro hs
    simp [BuildInError.displayText, hs, hk]
  · intro c hs
    simp [BuildInError.displayText, hs, hk]
  · cases hs : e.source <;> simp [BuildInError.errorSource, hs]

/-- Witness for C9 at a malformed-body error with a concrete cause. -/
theorem display_and_source_spec_witness :
    (BuildInError.malformed_body { display := "boom" }).displayText =
      some ("failed to parse request body" ++ ": " ++ "boom") :=
  (display_and_source_spec (BuildInError.malformed_body { display := "boom" })
      "failed to parse request body" rfl).2.1 { display := "boom" } rfl

/-- C10: with an empty stored method list, every wrong-method-kind error,
however constructed, still gets an Allow header whose value is the empty
string, and the accessor reports a present-but-empty list. -/
theorem wrong_method_empty_behavior (c : BoxedError) :
    (BuildInError.wrong_method ([] : List Method)).response =
        some { status := 405, headers := [("allow", "")], body := () } ∧
      (BuildInError.from_kind BuildInErrorKind.WrongMethod).response =
        some { status := 405, headers := [("allow", "")], body := () } ∧
      (BuildInError.with_source BuildInErrorKind.WrongMethod c).response =
        some { status := 405, headers := [("allow", "")], body := () } ∧
      (BuildInError.wrong_method ([] : List Method)).allowedMethods = some [] ∧
      (BuildInError.from_kind BuildInErrorKind.WrongMethod).allowedMethods = some [] ∧
      (BuildInError.with_source BuildInErrorKind.WrongMethod c).allowedMethods = some [] :=
  ⟨rfl, rfl, rfl, rfl, rfl, rfl⟩
